import Mathlib

set_option linter.unusedVariables false

/-!
Verification development for the factura-project repository.

The definitions below are a shallow embedding of the two core modules:

* `src/rag/validator.py` — the `InvoiceValidator` class: ten business rules
  plus the aggregation in `validate_invoice`.
* `src/extractor/semantic_extraction.py` — the semantic field extractor:
  the item-table parser, the totals scan, the numeric fallbacks and the
  invoice-number cascade.

Modelling conventions:

* Python floats are modelled as exact rationals (`ℚ`); the tolerance
  constants (`0.01`, `0.02`, `19.5`, …) are the corresponding exact
  rationals.
* A Python value that may be a number or a string (the loosely typed dict
  fields read by the validator) is modelled by `PyVal`; `PyVal.toQ` models
  the idiom `float(x) if x else 0`, returning `none` where Python would
  raise `ValueError`/`TypeError` (every such raise is caught by the source,
  so all modelled functions stay total, mirroring the code's
  never-propagate error design).
* Optional string fields are `Option String`; the source's absence test
  `not x or x in ['N/A', '', None]` is `strAbsent`.
* `datetime.now()` is a parameter `now : ℚ` counted in days (fractional
  part = time of day); parsed dates are whole-day ordinals obtained by a
  standard civil-from-days computation, so date comparisons and
  `timedelta(days=...)` arithmetic are exact.
* Human-readable `message` strings of findings are not modelled: no
  statement below depends on them, and the `errors` / `warnings` lists
  (which in the source collect messages, one per failed finding) are
  modelled as the lists of the corresponding findings, preserving order,
  length and emptiness.
-/

namespace Factura

/-! ## Basic character/string helpers (Python str operations) -/

/-- Numeric value of a decimal digit character. -/
def digitVal (c : Char) : ℕ := c.toNat - '0'.toNat

/-- Value of a string of decimal digits. -/
def digitsVal (cs : List Char) : ℕ := cs.foldl (fun a c => a * 10 + digitVal c) 0

/-- Python `str.strip()` (both-ends whitespace trim). -/
def trimWs (cs : List Char) : List Char :=
  ((cs.dropWhile Char.isWhitespace).reverse.dropWhile Char.isWhitespace).reverse

/-- Python `str.split(sep)` for a single-character separator; `"".split`
gives `[""]`, like Python. -/
def splitBy (p : Char → Bool) : List Char → List (List Char)
  | [] => [[]]
  | c :: rest =>
    if p c then [] :: splitBy p rest
    else
      match splitBy p rest with
      | g :: gs => (c :: g) :: gs
      | [] => [[c]]

/-- Join chunks with a separator character (Python `sep.join`). -/
def joinWith (sep : Char) : List (List Char) → List Char
  | [] => []
  | [g] => g
  | g :: gs => g ++ sep :: joinWith sep gs

/-- Substring containment, Python `needle in haystack`. -/
def containsSub (needle : List Char) : List Char → Bool
  | [] => needle.isEmpty
  | c :: rest => needle.isPrefixOf (c :: rest) || containsSub needle rest

/-- Index of the first occurrence of a substring, Python `str.find` (for
occurring substrings; absent gives `none`). -/
def strFind (sub : List Char) : List Char → Option ℕ
  | [] => if sub.isEmpty then some 0 else none
  | c :: rest =>
    if sub.isPrefixOf (c :: rest) then some 0
    else (strFind sub rest).map (· + 1)

/-- Python `str.split('\n')` on a `String`. -/
def splitLines (s : String) : List String :=
  (splitBy (· = '\n') s.toList).map String.mk

/-- Python `'\n'.join` on `String`s. -/
def joinLines (ls : List String) : String :=
  String.mk (joinWith '\n' (ls.map String.toList))

/-- Python substring containment on `String`s. -/
def strContains (needle s : String) : Bool := containsSub needle.toList s.toList

/-- Python `str.strip()` on a `String`. -/
def pyStrip (s : String) : String := String.mk (trimWs s.toList)

/-- Python `str.upper()` (ASCII letters; the inputs exercised are ASCII). -/
def pyUpper (s : String) : String := String.mk (s.toList.map Char.toUpper)

/-- Python `str.rstrip('.')`. -/
def dropTrailingDots (cs : List Char) : List Char :=
  (cs.reverse.dropWhile (· = '.')).reverse

/-- Python `re.sub(r'\s+', ' ', s)`: collapse whitespace runs to one space. -/
def collapseWsAux : Bool → List Char → List Char
  | _, [] => []
  | prevWs, c :: rest =>
    if c.isWhitespace then
      if prevWs then collapseWsAux true rest
      else ' ' :: collapseWsAux true rest
    else c :: collapseWsAux false rest

/-- Remove every occurrence of a character, Python `str.replace(c, '')`. -/
def removeChar (c : Char) (s : String) : String :=
  String.mk (s.toList.filter (· ≠ c))

/-- Python `str.zfill(2)`. -/
def zfill2 (s : String) : String :=
  if s.length ≥ 2 then s else String.mk (List.replicate (2 - s.length) '0' ++ s.toList)

/-- Last `n` elements, Python `l[-n:]`. -/
def lastN (n : ℕ) (l : List α) : List α := l.drop (l.length - n)

/-! ## Python float() and str(float) models -/

/-- Model of Python `float()` applied to the numeric strings this code base
produces: optional sign, integer digits, optional `.` and fraction digits.
Exponent notation, `inf`/`nan` and embedded underscores are not modelled
(none of the strings reaching `float` here use them); any other shape gives
`none`, modelling a raised `ValueError`. -/
def pyFloat (s : String) : Option ℚ :=
  let cs := trimWs s.toList
  let signAndRest : ℚ × List Char :=
    match cs with
    | '-' :: rest => (-1, rest)
    | '+' :: rest => (1, rest)
    | _ => (1, cs)
  let sign := signAndRest.1
  let cs1 := signAndRest.2
  let intPart := cs1.takeWhile Char.isDigit
  let rest := cs1.dropWhile Char.isDigit
  match rest with
  | [] => if intPart.isEmpty then none else some (sign * digitsVal intPart)
  | '.' :: frac =>
    if frac.all Char.isDigit ∧ ¬(intPart.isEmpty ∧ frac.isEmpty) then
      some (sign * ((digitsVal intPart : ℚ) + (digitsVal frac : ℚ) / (10 : ℚ) ^ frac.length))
    else none
  | _ => none

/-- Model of Python `str()` on a float, adequate for the integral values
that reach it in the modelled paths (e.g. `str(900.0) = "900.0"`).
Non-integral rationals never reach this function in any statement proved
below; for them we print a decimal expansion when the denominator is a
divisor of 10^6, which covers every value `pyFloat` can produce from the
extractor's numeric tokens of at most six fractional digits. -/
def pyFloatRepr (q : ℚ) : String :=
  if q.den = 1 then toString q.num ++ ".0"
  else
    let k := if q.den ∣ 10 then 1 else if q.den ∣ 100 then 2 else if q.den ∣ 1000 then 3
             else if q.den ∣ 10000 then 4 else if q.den ∣ 100000 then 5 else 6
    let scaled := q * (10 : ℚ) ^ k
    let n := scaled.num.natAbs
    let digits := toString n
    let digits := if digits.length ≤ k then
        String.mk (List.replicate (k + 1 - digits.length) '0' ++ digits.toList)
      else digits
    let cut := digits.length - k
    (if q < 0 then "-" else "") ++
      String.mk (digits.toList.take cut) ++ "." ++ String.mk (digits.toList.drop cut)

/-- Model of Python `f"..{x:.2f}.."` for the derived-total fallback
(`semantic_extraction.py` line 113). The inputs there are sums of parsed
decimal strings; rounding of non-representable values is approximated by
round-half-up, which agrees with Python on the exact-cent values that
occur. -/
def formatF2 (q : ℚ) : String :=
  let cents : ℤ := ⌊q * 100 + 1 / 2⌋
  let absC := cents.natAbs
  let whole := absC / 100
  let frac := absC % 100
  (if cents < 0 then "-" else "") ++ toString whole ++ "." ++
    (if frac < 10 then "0" else "") ++ toString frac

/-! ## Loosely typed Python values -/

/-- A Python scalar as it occurs in the dict fields read by the validator:
either a string or a number (numbers are exact rationals standing for
floats/ints). -/
inductive PyVal where
  | str (s : String)
  | num (q : ℚ)
deriving DecidableEq

/-- Python truthiness of a `PyVal`. -/
def PyVal.truthy : PyVal → Bool
  | .str s => s ≠ ""
  | .num q => q ≠ 0

/-- The validator's conversion idiom `float(x) if x else 0`
(validator.py lines 335–337, 378–379, 438, 532–533): falsy values become
`0`; truthy strings go through `float()`; `none` models the raised
`ValueError`/`TypeError` that the surrounding `try` catches. -/
def PyVal.toQ (v : PyVal) : Option ℚ :=
  if ¬ v.truthy then some 0
  else
    match v with
    | .num q => some q
    | .str s => pyFloat s

/-- The source's absence test `not x or x in ['N/A', '', None]`
(validator.py lines 183, 247, 304, 487, 585, 593, 662). -/
def strAbsent : Option String → Bool
  | none => true
  | some s => s = "" || s = "N/A"

/-! ## Findings -/

/-- Severity of one validation finding. -/
inductive Severity where
  | success
  | warning
  | error
deriving DecidableEq

/-- One validation finding: the dict `field`/`valid`/`severity`/`message`
returned by each rule (the message string is not modelled; see the header
comment). -/
structure Finding where
  field : String
  valid : Bool
  severity : Severity
deriving DecidableEq

/-- One line item as the validator sees it: a dict whose `total` value may
be a string or a number (`descripcion`, `cantidad` and `precio_unitario`
are carried for the extractor but never read by the validator). -/
structure Item where
  descripcion : String
  cantidad : PyVal
  precio_unitario : PyVal
  total : PyVal
deriving DecidableEq

/-! ## Dates: a faithful model of the `datetime.strptime` calls

The validator tries the formats `%d/%m/%Y`, `%d-%m-%Y`, `%Y-%m-%d`,
`%Y/%m/%d` in that order (validator.py line 194, 605). CPython's
`_strptime` matches `%d` with `(3[01]|[12]\d|0[1-9]|[1-9])`, `%m` with
`(1[0-2]|0[1-9]|[1-9])` and `%Y` with exactly four digits, requires the
whole string to be consumed, and `datetime` construction validates the
day-of-month; all of that is reproduced here. Parsed dates are turned into
day ordinals for comparison with `now`. -/

/-- CPython `_strptime` token `%d`. -/
def parseDay2 : List Char → Option (ℤ × List Char)
  | c1 :: c2 :: rest =>
    if c1 = '3' ∧ (c2 = '0' ∨ c2 = '1') then some (30 + digitVal c2, rest)
    else if (c1 = '1' ∨ c1 = '2') ∧ c2.isDigit then
      some ((digitVal c1 : ℤ) * 10 + digitVal c2, rest)
    else if c1 = '0' ∧ c2.isDigit ∧ c2 ≠ '0' then some (digitVal c2, rest)
    else if c1.isDigit ∧ c1 ≠ '0' then some (digitVal c1, c2 :: rest)
    else none
  | [c1] => if c1.isDigit ∧ c1 ≠ '0' then some (digitVal c1, []) else none
  | [] => none

/-- CPython `_strptime` token `%m`. -/
def parseMonth2 : List Char → Option (ℤ × List Char)
  | c1 :: c2 :: rest =>
    if c1 = '1' ∧ (c2 = '0' ∨ c2 = '1' ∨ c2 = '2') then some (10 + digitVal c2, rest)
    else if c1 = '0' ∧ c2.isDigit ∧ c2 ≠ '0' then some (digitVal c2, rest)
    else if c1.isDigit ∧ c1 ≠ '0' then some (digitVal c1, c2 :: rest)
    else none
  | [c1] => if c1.isDigit ∧ c1 ≠ '0' then some (digitVal c1, []) else none
  | [] => none

/-- CPython `_strptime` token `%Y`: exactly four digits. -/
def parseYear4 : List Char → Option (ℤ × List Char)
  | a :: b :: c :: d :: rest =>
    if a.isDigit ∧ b.isDigit ∧ c.isDigit ∧ d.isDigit then
      some (((digitVal a * 10 + digitVal b) * 10 + digitVal c) * 10 + digitVal d, rest)
    else none
  | _ => none

def expectChar (c : Char) : List Char → Option (List Char)
  | x :: rest => if x = c then some rest else none
  | [] => none

/-- Gregorian leap year. -/
def isLeapYear (y : ℤ) : Bool := y % 4 = 0 ∧ (y % 100 ≠ 0 ∨ y % 400 = 0)

/-- Length of a month. -/
def daysInMonth (y m : ℤ) : ℤ :=
  if m = 2 then (if isLeapYear y then 29 else 28)
  else if m = 4 ∨ m = 6 ∨ m = 9 ∨ m = 11 then 30
  else 31

/-- The `datetime` constructor's validation (month is already 1–12 and day
is ≥ 1 by the token patterns; year must be in `MINYEAR..MAXYEAR` and the
day must exist in the month). -/
def validDate (y m d : ℤ) : Bool := 1 ≤ y ∧ y ≤ 9999 ∧ d ≤ daysInMonth y m

/-- Day ordinal of a civil date (standard days-from-civil computation; all
intermediate quantities are non-negative for the years accepted by
`validDate`, so integer-division convention does not matter). -/
def daysFromCivil (y m d : ℤ) : ℤ :=
  let y' := if m ≤ 2 then y - 1 else y
  let era := y' / 400
  let yoe := y' - era * 400
  let mp := (m + 9) % 12
  let doy := (153 * mp + 2) / 5 + d - 1
  let doe := yoe * 365 + yoe / 4 - yoe / 100 + doy
  era * 146097 + doe - 719468

/-- `datetime.strptime(s, "%d<sep>%m<sep>%Y")` as a day ordinal. -/
def strptimeDMY (sep : Char) (cs : List Char) : Option ℤ := do
  let (d, cs) ← parseDay2 cs
  let cs ← expectChar sep cs
  let (m, cs) ← parseMonth2 cs
  let cs ← expectChar sep cs
  let (y, cs) ← parseYear4 cs
  if cs.isEmpty ∧ validDate y m d then some (daysFromCivil y m d) else none

/-- `datetime.strptime(s, "%Y<sep>%m<sep>%d")` as a day ordinal. -/
def strptimeYMD (sep : Char) (cs : List Char) : Option ℤ := do
  let (y, cs) ← parseYear4 cs
  let cs ← expectChar sep cs
  let (m, cs) ← parseMonth2 cs
  let cs ← expectChar sep cs
  let (d, cs) ← parseDay2 cs
  if cs.isEmpty ∧ validDate y m d then some (daysFromCivil y m d) else none

/-- The format-trying loops of validator.py lines 194–199 and 605–615:
`['%d/%m/%Y', '%d-%m-%Y', '%Y-%m-%d', '%Y/%m/%d']`, first success wins. -/
def parseFechaAny (s : String) : Option ℤ :=
  let cs := s.toList
  match strptimeDMY '/' cs with
  | some d => some d
  | none =>
    match strptimeDMY '-' cs with
    | some d => some d
    | none =>
      match strptimeYMD '-' cs with
      | some d => some d
      | none => strptimeYMD '/' cs

/-! ## The ten validation rules (validator.py lines 179–691) -/

/-- Optional knowledge base: `search` returns `none` to model a raised
exception (caught by the source), otherwise the result list. -/
structure KB where
  search : String → ℕ → Option (List String)

/-- Rule 1, `_validate_fecha_emision` (lines 179–241). `now` is
`datetime.now()` in fractional days; `365*5 = 1825` days is the age
horizon. -/
def validateFechaEmision (now : ℚ) (fecha : Option String) : Finding :=
  if strAbsent fecha then ⟨"Fecha de Emisión", false, .error⟩
  else
    match parseFechaAny (fecha.getD "") with
    | none => ⟨"Fecha de Emisión", false, .error⟩
    | some dt =>
      if (dt : ℚ) > now then ⟨"Fecha de Emisión", false, .error⟩
      else if (dt : ℚ) < now - 1825 then ⟨"Fecha de Emisión", false, .warning⟩
      else ⟨"Fecha de Emisión", true, .success⟩

/-- `re.sub(r'[^0-9]', '', str(nit))` (line 256). -/
def nitDigits (s : String) : List Char := s.toList.filter Char.isDigit

/-- The prime weights of `_calcular_digito_verificacion` (line 289). -/
def primos : List ℕ := [3, 7, 13, 17, 19, 23, 29, 37, 41, 43, 47, 53, 59, 67, 71]

/-- `_calcular_digito_verificacion` (lines 287–298): zero-fill to 15 and
take the weighted sum of the first fifteen characters, left to right. -/
def calcularDigitoVerificacion (nit : String) : ℕ :=
  let padded := List.replicate (15 - nit.length) '0' ++ nit.toList
  let suma := ((padded.take 15).zip primos).foldl
    (fun acc cp => acc + digitVal cp.fst * cp.snd) 0
  let residuo := suma % 11
  if residuo = 0 then 0 else if residuo = 1 then 1 else 11 - residuo

/-- Rule 2, `_validate_nit` (lines 243–285). -/
def validateNit (nit : Option String) : Finding :=
  if strAbsent nit then ⟨"NIT Emisor", false, .error⟩
  else
    let nitLimpio := nitDigits (nit.getD "")
    if nitLimpio.length < 9 then ⟨"NIT Emisor", false, .error⟩
    else if nitLimpio.length ≥ 10 then
      let nitBase := String.mk nitLimpio.dropLast
      let dvDeclarado := digitVal (nitLimpio.getLastD '0')
      if dvDeclarado ≠ calcularDigitoVerificacion nitBase then ⟨"NIT Emisor", false, .warning⟩
      else ⟨"NIT Emisor", true, .success⟩
    else ⟨"NIT Emisor", true, .success⟩

/-- Hexadecimal characters kept by `re.sub(r'[^a-fA-F0-9]', '', ...)`
(line 313). -/
def isHexChar (c : Char) : Bool :=
  c.isDigit || ('a' ≤ c ∧ c ≤ 'f') || ('A' ≤ c ∧ c ≤ 'F')

/-- Rule 3, `_validate_cufe` (lines 300–328). -/
def validateCufe (cufe : Option String) : Finding :=
  if strAbsent cufe then ⟨"CUFE", false, .warning⟩
  else
    let cufeLimpio := (cufe.getD "").toList.filter isHexChar
    if cufeLimpio.length ≠ 96 ∧ cufeLimpio.length ≠ 128 then ⟨"CUFE", false, .warning⟩
    else ⟨"CUFE", true, .success⟩

/-- Rule 4, `_validate_totales` (lines 330–371): `subtotal + iva ≈ total`
within `total * 0.01`; conversion failure or zero/absent total is an
error. -/
def validateTotales (subtotal iva total : PyVal) : Finding :=
  match subtotal.toQ, iva.toQ, total.toQ with
  | some s, some i, some t =>
    if t = 0 then ⟨"Coherencia de Totales", false, .error⟩
    else
      let sumaCalculada := s + i
      let diferencia := |sumaCalculada - t|
      let margen := t * 0.01
      if diferencia > margen then ⟨"Coherencia de Totales", false, .error⟩
      else ⟨"Coherencia de Totales", true, .success⟩
  | _, _, _ => ⟨"Coherencia de Totales", false, .error⟩

/-- Python `min(xs, key=...)`: first element with minimal key. -/
def pymin (key : ℚ → ℚ) : List ℚ → ℚ
  | [] => 0
  | x :: xs => xs.foldl (fun b y => if key y < key b then y else b) x

/-- Rule 5, `_validate_iva_porcentaje` (lines 373–423). -/
def validateIvaPorcentaje (subtotal iva : PyVal) : Finding :=
  match subtotal.toQ, iva.toQ with
  | some s, some i =>
    if s ≤ 0 then ⟨"Porcentaje IVA", true, .warning⟩
    else
      let porcentaje := i / s * 100
      if porcentaje > 19.5 then ⟨"Porcentaje IVA", false, .error⟩
      else
        let tasaCercana := pymin (fun x => |x - porcentaje|) [0, 5, 19]
        if |porcentaje - tasaCercana| > 1 then ⟨"Porcentaje IVA", true, .warning⟩
        else ⟨"Porcentaje IVA", true, .success⟩
  | _, _ => ⟨"Porcentaje IVA", false, .warning⟩

/-- The item-sum accumulation of rule 6 (lines 441–447): falsy totals are
skipped, `float(str(t).replace(',', ''))` is added, parse failures are
swallowed. A skipped or unparseable entry contributes 0, exactly like the
source's `pass`. -/
def itemAddend (v : PyVal) : ℚ :=
  if ¬ v.truthy then 0
  else
    match v with
    | .num q => q
    | .str s => (pyFloat (removeChar ',' s)).getD 0

/-- `suma_items` of rule 6. -/
def sumaItems (items : List Item) : ℚ :=
  items.foldl (fun acc it => acc + itemAddend it.total) 0

/-- Rule 6, `_validate_suma_items` (lines 425–481): a subtotal whose
`float()` raises is caught by the outer `except` (valid `False`,
severity `warning`). -/
def validateSumaItems (items : List Item) (subtotal : PyVal) : Finding :=
  if items.isEmpty then ⟨"Suma de Ítems", true, .warning⟩
  else
    match subtotal.toQ with
    | none => ⟨"Suma de Ítems", false, .warning⟩
    | some s =>
      let suma := sumaItems items
      if suma = 0 then ⟨"Suma de Ítems", true, .warning⟩
      else
        let diferencia := |suma - s|
        let margen := max (s * 0.02) 1
        if diferencia > margen then ⟨"Suma de Ítems", false, .warning⟩
        else ⟨"Suma de Ítems", true, .success⟩

/-- Rule 7, `_validate_actividad_economica` (lines 483–525): the two final
branches differ only in their message. -/
def validateActividadEconomica (kb : Option KB) (actividad : Option String) : Finding :=
  if strAbsent actividad then ⟨"Actividad Económica", true, .warning⟩
  else
    let codigoLimpio := (actividad.getD "").toList.filter Char.isDigit
    if codigoLimpio.length < 4 then ⟨"Actividad Económica", false, .warning⟩
    else
      match kb with
      | some k =>
        match k.search ("actividad económica código " ++ String.mk codigoLimpio) 1 with
        | some (_ :: _) => ⟨"Actividad Económica", true, .success⟩
        | _ => ⟨"Actividad Económica", true, .success⟩
      | none => ⟨"Actividad Económica", true, .success⟩

/-- Rule 8, `_validate_retencion_fuente` (lines 527–579). -/
def validateRetencionFuente (retencion subtotal : PyVal) : Finding :=
  match retencion.toQ, subtotal.toQ with
  | some r, some s =>
    if s ≤ 0 then ⟨"Retención en la Fuente", true, .warning⟩
    else if 0 < r ∧ r < 1 then
      if r * 100 > 15 then ⟨"Retención en la Fuente", false, .warning⟩
      else ⟨"Retención en la Fuente", true, .success⟩
    else if r ≥ 1 then
      if r / s * 100 > 15 then ⟨"Retención en la Fuente", false, .warning⟩
      else ⟨"Retención en la Fuente", true, .success⟩
    else ⟨"Retención en la Fuente", true, .success⟩
  | _, _ => ⟨"Retención en la Fuente", true, .warning⟩

/-- Rule 9, `_validate_fecha_limite_pago` (lines 581–656): the per-format
loop parses each of the two dates with the first succeeding format, which
is exactly `parseFechaAny`. -/
def validateFechaLimitePago (fechaEmision fechaLimite : Option String) : Finding :=
  if strAbsent fechaLimite then ⟨"Fecha Límite de Pago", true, .warning⟩
  else if strAbsent fechaEmision then ⟨"Fecha Límite de Pago", true, .warning⟩
  else
    match parseFechaAny (fechaEmision.getD ""), parseFechaAny (fechaLimite.getD "") with
    | some em, some lim =>
      if lim < em then ⟨"Fecha Límite de Pago", false, .error⟩
      else if lim - em > 180 then ⟨"Fecha Límite de Pago", true, .warning⟩
      else ⟨"Fecha Límite de Pago", true, .success⟩
    | _, _ => ⟨"Fecha Límite de Pago", true, .warning⟩

/-- Rule 10, `_validate_resolucion_dian` (lines 658–691). -/
def validateResolucionDian (kb : Option KB) (numeroFactura proveedor : Option String) : Finding :=
  if strAbsent numeroFactura then ⟨"Resolución DIAN", true, .warning⟩
  else
    match kb with
    | some k =>
      match k.search ("resolución DIAN facturación electrónica " ++ proveedor.getD "") 2 with
      | some (_ :: _) => ⟨"Resolución DIAN", true, .success⟩
      | _ => ⟨"Resolución DIAN", true, .warning⟩
    | none => ⟨"Resolución DIAN", true, .warning⟩

/-! ## The aggregation `validate_invoice` (validator.py lines 28–177) -/

/-- The subset of the input dict read by `validate_invoice`: each
`data.get(key)` with a missing key yields the documented default (`0` for
the numeric fields, `None`/`[]` otherwise), which callers encode directly
in these fields. -/
structure InvoiceData where
  fecha_emision : Option String
  nit_emisor : Option String
  cufe : Option String
  subtotal : PyVal
  iva : PyVal
  total : PyVal
  items : List Item
  actividad_economica : Option String
  retencion_fuente : PyVal
  fecha_limite_pago : Option String
  numero_factura : Option String
  proveedor : Option String

/-- The result dict of `validate_invoice`. -/
structure Report where
  valid : Bool
  confidence_score : ℚ
  errors : List Finding
  warnings : List Finding
  validations : List Finding
  recommendation : String
  total_validations : ℕ
  passed_validations : ℕ

/-- The ten findings, in the order `validate_invoice` appends them
(lines 42–151). -/
def allFindings (now : ℚ) (kb : Option KB) (d : InvoiceData) : List Finding :=
  [validateFechaEmision now d.fecha_emision,
   validateNit d.nit_emisor,
   validateCufe d.cufe,
   validateTotales d.subtotal d.iva d.total,
   validateIvaPorcentaje d.subtotal d.iva,
   validateSumaItems d.items d.subtotal,
   validateActividadEconomica kb d.actividad_economica,
   validateRetencionFuente d.retencion_fuente d.subtotal,
   validateFechaLimitePago d.fecha_emision d.fecha_limite_pago,
   validateResolucionDian kb d.numero_factura d.proveedor]

/-- `validate_invoice` (lines 28–177). The source appends a message to
`errors` for each finding with `valid` false and severity `error`, and to
`warnings` for each finding with `valid` false and any other severity;
filtering the findings list in order is the same computation. -/
def validateInvoice (now : ℚ) (kb : Option KB) (d : InvoiceData) : Report :=
  let validations := allFindings now kb d
  let errors := validations.filter fun v => !v.valid && v.severity == Severity.error
  let warnings := validations.filter fun v => !v.valid && !(v.severity == Severity.error)
  let validCount := (validations.filter fun v => v.valid).length
  let confidence : ℚ := if validations.isEmpty then 0
    else (validCount : ℚ) / (validations.length : ℚ)
  let isValid := errors.length == 0
  { valid := isValid
    confidence_score := confidence
    errors := errors
    warnings := warnings
    validations := validations
    recommendation :=
      if isValid && (warnings.length == 0) then "✅ Factura lista para procesamiento"
      else if isValid then "⚠️ Factura válida con advertencias menores"
      else "❌ Factura requiere revisión manual"
    total_validations := validations.length
    passed_validations := validCount }

/-- The three-way recommendation as a function of the two conditions the
source tests (`len(errors) == 0`, `len(warnings) == 0`); used to state
that the recommendation depends on nothing else. -/
def recommendationOf (noErrors noWarnings : Bool) : String :=
  if noErrors && noWarnings then "✅ Factura lista para procesamiento"
  else if noErrors then "⚠️ Factura válida con advertencias menores"
  else "❌ Factura requiere revisión manual"

/-! ## A small regular-expression engine

The extractor is a cascade of Python `re` patterns. Each pattern used by
`semantic_extraction.py` is transcribed below into the following AST, and
the matcher reproduces Python's backtracking semantics: alternation
prefers the left branch, greedy repetition tries longer first, lazy
repetition shorter first, `re.search` tries start positions left to
right. Word boundaries thread the previous character through the match.
Recursion is bounded by a fuel argument that strictly exceeds the depth
of any backtracking path for the pattern/input sizes that occur. -/

/-- Regular-expression AST. `rep a lo hi greedy` is `a` repeated between
`lo` and `hi` times (`hi = none` is unbounded); `grp i a` captures group
`i`; `eos` is `$`; `wordB` is `\b`. -/
inductive Rx where
  | eps
  | cls (p : Char → Bool)
  | seq (a b : Rx)
  | alt (a b : Rx)
  | rep (a : Rx) (lo : ℕ) (hi : Option ℕ) (greedy : Bool)
  | grp (i : ℕ) (a : Rx)
  | wordB
  | eos

/-- Captured groups, most recent first. -/
abbrev Captures := List (ℕ × String)

/-- Python `\w` for the ASCII inputs exercised. -/
def isWordChar (c : Char) : Bool := c.isAlphanum || c = '_'

/-- CPS backtracking matcher. `prev` is the character before the current
position (for `\b`); the continuation receives the new previous
character, the remaining input and the captures. -/
def rxm (fuel : ℕ) (r : Rx) (prev : Option Char) (cs : List Char) (g : Captures)
    (k : Option Char → List Char → Captures → Option α) : Option α :=
  match fuel with
  | 0 => none
  | fuel + 1 =>
    match r with
    | .eps => k prev cs g
    | .eos => match cs with | [] => k prev cs g | _ => none
    | .wordB =>
      let left := match prev with | some c => isWordChar c | none => false
      let right := match cs with | c :: _ => isWordChar c | [] => false
      if left != right then k prev cs g else none
    | .cls p =>
      match cs with
      | [] => none
      | c :: rest => if p c then k (some c) rest g else none
    | .seq a b => rxm fuel a prev cs g (fun p2 cs2 g2 => rxm fuel b p2 cs2 g2 k)
    | .alt a b =>
      match rxm fuel a prev cs g k with
      | some res => some res
      | none => rxm fuel b prev cs g k
    | .grp i a =>
      rxm fuel a prev cs g (fun p2 cs2 g2 =>
        k p2 cs2 ((i, String.mk (cs.take (cs.length - cs2.length))) :: g2))
    | .rep a lo hi greedy =>
      match lo with
      | lo' + 1 =>
        rxm fuel a prev cs g (fun p2 cs2 g2 =>
          rxm fuel (.rep a lo' (hi.map (· - 1)) greedy) p2 cs2 g2 k)
      | 0 =>
        match hi with
        | some 0 => k prev cs g
        | _ =>
          if greedy then
            match rxm fuel a prev cs g (fun p2 cs2 g2 =>
                if cs2.length < cs.length then
                  rxm fuel (.rep a 0 (hi.map (· - 1)) greedy) p2 cs2 g2 k
                else none) with
            | some res => some res
            | none => k prev cs g
          else
            match k prev cs g with
            | some res => some res
            | none =>
              rxm fuel a prev cs g (fun p2 cs2 g2 =>
                if cs2.length < cs.length then
                  rxm fuel (.rep a 0 (hi.map (· - 1)) greedy) p2 cs2 g2 k
                else none)

/-- Fuel bound: generous multiple of the input length. -/
def rxFuel (cs : List Char) : ℕ := 400 * (cs.length + 4)

/-- A successful match: start position, matched text (group 0), groups. -/
structure RxMatch where
  start : ℕ
  matched : String
  groups : Captures

/-- `m.group(i)`, empty for a non-participating group (not exercised). -/
def RxMatch.group (m : RxMatch) (i : ℕ) : String :=
  match m.groups.find? (fun p => p.fst = i) with
  | some p => p.snd
  | none => ""

/-- Try to match at the current position, returning the rest and captures. -/
def rxMatchAt (r : Rx) (prev : Option Char) (cs : List Char) :
    Option (List Char × Captures) :=
  rxm (rxFuel cs) r prev cs [] (fun _ rest g => some (rest, g))

def rxSearchAux (r : Rx) : Option Char → List Char → ℕ → Option RxMatch
  | prev, cs, pos =>
    match rxMatchAt r prev cs with
    | some (rest, g) => some ⟨pos, String.mk (cs.take (cs.length - rest.length)), g⟩
    | none =>
      match cs with
      | [] => none
      | c :: rest => rxSearchAux r (some c) rest (pos + 1)

/-- Python `re.search`. -/
def reSearch (r : Rx) (s : String) : Option RxMatch := rxSearchAux r none s.toList 0

/-- Python `re.match` (anchored at the start). -/
def reMatch (r : Rx) (s : String) : Option RxMatch :=
  (rxMatchAt r none s.toList).map fun rg =>
    ⟨0, String.mk (s.toList.take (s.toList.length - rg.fst.length)), rg.snd⟩

def rxFindAllLoop (r : Rx) : ℕ → Option Char → List Char → List Captures
  | 0, _, _ => []
  | n + 1, prev, cs =>
    match rxMatchAt r prev cs with
    | some (rest, g) =>
      if rest.length < cs.length then
        let consumed := cs.take (cs.length - rest.length)
        g :: rxFindAllLoop r n (consumed.getLastD ' ') rest
      else
        match cs with
        | [] => [g]
        | c :: rest2 => g :: rxFindAllLoop r n (some c) rest2
    | none =>
      match cs with
      | [] => []
      | c :: rest2 => rxFindAllLoop r n (some c) rest2

/-- Python `re.findall` / `re.finditer`: non-overlapping leftmost matches. -/
def reFindAll (r : Rx) (s : String) : List Captures :=
  rxFindAllLoop r (s.toList.length + 1) none s.toList

/-! ### Pattern constructors mirroring the `re` syntax -/

/-- Case-sensitive literal character. -/
def litC (c : Char) : Rx := .cls (· = c)

/-- Case-insensitive literal character (`re.IGNORECASE`, ASCII). -/
def litCI (c : Char) : Rx := .cls (fun x => x.toLower = c.toLower)

/-- Case-sensitive literal string. -/
def rxStr (s : String) : Rx := (s.toList.map litC).foldr .seq .eps

/-- Case-insensitive literal string. -/
def rxStrI (s : String) : Rx := (s.toList.map litCI).foldr .seq .eps

/-- Character class `\d`. -/
def digitC : Rx := .cls Char.isDigit

/-- Character class `\s`. -/
def wsC : Rx := .cls Char.isWhitespace

/-- The dot `.` (any character but a newline). -/
def anyC : Rx := .cls (· ≠ '\n')

/-- Class `[:\s]`. -/
def colonWsC : Rx := .cls (fun c => c = ':' || c.isWhitespace)

def rPlus (r : Rx) : Rx := .rep r 1 none true
def rStar (r : Rx) : Rx := .rep r 0 none true
def rOpt (r : Rx) : Rx := .rep r 0 (some 1) true
def rPlusLazy (r : Rx) : Rx := .rep r 1 none false

/-- Left-preferring alternation of a non-empty list. -/
def rxAlts : List Rx → Rx
  | [] => .eps
  | [r] => r
  | r :: rest => .alt r (rxAlts rest)

/-- Group lookup on raw captures (for `findall` tuples). -/
def capGroup (g : Captures) (i : ℕ) : String :=
  match g.find? (fun p => p.fst = i) with
  | some p => p.snd
  | none => ""

/-! ## The semantic extractor (semantic_extraction.py)

Every Python pattern is transcribed into an `Rx` constant named after its
role; the comment above each gives the original pattern text. -/

/-- `[\d,]+\.?\d*` — the numeric token shared by the amount patterns. -/
def numTok : Rx :=
  .seq (rPlus (.cls fun c => c.isDigit || c = ',')) (.seq (rOpt (litC '.')) (rStar digitC))

/-- Line 434: `^(.+?)\s+([\d,]+\.?\d*)$` (via `re.match`). -/
def patItemLine : Rx :=
  .seq (.grp 1 (rPlusLazy anyC)) (.seq (rPlus wsC) (.seq (.grp 2 numTok) .eos))

/-- Line 449: `^(\d+)\.?\s+(.+)` (via `re.match`). -/
def patItemNum : Rx :=
  .seq (.grp 1 (rPlus digitC)) (.seq (rOpt (litC '.')) (.seq (rPlus wsC) (.grp 2 (rPlus anyC))))

/-- Line 455: `(\d+)[.,](\d{2})\s*(?:each)?`. -/
def patCantidad : Rx :=
  .seq (.grp 1 (rPlus digitC))
    (.seq (.cls fun c => c = '.' || c = ',')
      (.seq (.grp 2 (.rep digitC 2 (some 2) true)) (.seq (rStar wsC) (rOpt (rxStr "each")))))

/-- Line 456: `(\d{1,4})[.,](\d{2})`. -/
def patPrecio : Rx :=
  .seq (.grp 1 (.rep digitC 1 (some 4) true))
    (.seq (.cls fun c => c = '.' || c = ',') (.grp 2 (.rep digitC 2 (some 2) true)))

/-- Line 412: `Codigo\s+Descipcion|Descripcion|Description` (IGNORECASE). -/
def patTableHeader : Rx := rxAlts
  [.seq (rxStrI "Codigo") (.seq (rPlus wsC) (rxStrI "Descipcion")),
   rxStrI "Descripcion", rxStrI "Description"]

/-- Line 415: `PRACTICAR|RESOLUCION|Fecha Limite|CUFE|Tasa:` (IGNORECASE). -/
def patTableEnd : Rx := rxAlts
  [rxStrI "PRACTICAR", rxStrI "RESOLUCION", rxStrI "Fecha Limite",
   rxStrI "CUFE", rxStrI "Tasa:"]

/-- `0\s*-\s*,` — the last alternative of the summary-row filter. -/
def patZeroDashComma : Rx :=
  .seq (litC '0') (.seq (rStar wsC) (.seq (litC '-') (.seq (rStar wsC) (litC ','))))

/-- Line 94: `(SUB-TOTAL|SUBTOTAL|IVA|TOTAL|0\s*-\s*,)` (IGNORECASE). -/
def patSummaryWord5 : Rx := .grp 1 (rxAlts
  [rxStrI "SUB-TOTAL", rxStrI "SUBTOTAL", rxStrI "IVA", rxStrI "TOTAL", patZeroDashComma])

/-- Line 132: `(SUB-TOTAL|SUBTOTAL|IVA|TOTAL)` (IGNORECASE). -/
def patSummaryWord4 : Rx := .grp 1 (rxAlts
  [rxStrI "SUB-TOTAL", rxStrI "SUBTOTAL", rxStrI "IVA", rxStrI "TOTAL"])

/-- Line 130: `(FLETE|GASTOS|CLEANING|GATE)[^\d]*([\d,.]+)` (IGNORECASE). -/
def patFallbackItem : Rx :=
  .seq (.grp 1 (rxAlts [rxStrI "FLETE", rxStrI "GASTOS", rxStrI "CLEANING", rxStrI "GATE"]))
    (.seq (rStar (.cls fun c => ¬ c.isDigit))
      (.grp 2 (rPlus (.cls fun c => c.isDigit || c = ',' || c = '.'))))

/-- Line 377: `Total\s+USD\s*([\d,]+\.?\d*)` (IGNORECASE). -/
def patGross1 : Rx :=
  .seq (rxStrI "Total") (.seq (rPlus wsC) (.seq (rxStrI "USD") (.seq (rStar wsC) (.grp 1 numTok))))

/-- Line 378: `Total[:\s]+\$?\s*([\d,]+\.?\d*)` (IGNORECASE). -/
def patGross2 : Rx :=
  .seq (rxStrI "Total")
    (.seq (rPlus colonWsC) (.seq (rOpt (litC '$')) (.seq (rStar wsC) (.grp 1 numTok))))

/-- Line 379: `Gross\s*worth[:\s]+([\d,]+\.?\d*)` (IGNORECASE). -/
def patGross3 : Rx :=
  .seq (rxStrI "Gross")
    (.seq (rStar wsC) (.seq (rxStrI "worth") (.seq (rPlus colonWsC) (.grp 1 numTok))))

/-- Line 322: `Sub-total[:\s]+USD?\s*([\d,]+\.?\d*)` (IGNORECASE; note the
literal reads `US` followed by an optional `D`). -/
def patNet1 : Rx :=
  .seq (rxStrI "Sub-total")
    (.seq (rPlus colonWsC)
      (.seq (rxStrI "US") (.seq (rOpt (litCI 'D')) (.seq (rStar wsC) (.grp 1 numTok)))))

/-- Line 323: `Subtotal[:\s]+\$?\s*([\d,]+\.?\d*)` (IGNORECASE). -/
def patNet2 : Rx :=
  .seq (rxStrI "Subtotal")
    (.seq (rPlus colonWsC) (.seq (rOpt (litC '$')) (.seq (rStar wsC) (.grp 1 numTok))))

/-- Line 324: `Net\s*worth[:\s]+([\d,]+\.?\d*)` (IGNORECASE). -/
def patNet3 : Rx :=
  .seq (rxStrI "Net")
    (.seq (rStar wsC) (.seq (rxStrI "worth") (.seq (rPlus colonWsC) (.grp 1 numTok))))

/-- Line 340: `^IVA\s+USD\s+([\d,]+\.?\d*)$` (IGNORECASE; anchored, so
`re.search` behaves as an anchored match). -/
def patVatLineAnchored : Rx :=
  .seq (rxStrI "IVA")
    (.seq (rPlus wsC) (.seq (rxStrI "USD") (.seq (rPlus wsC) (.seq (.grp 1 numTok) .eos))))

/-- Line 341: `([\d,]+\.?\d*)$`. -/
def patNumEnd : Rx := .seq (.grp 1 numTok) .eos

/-- Line 358: `IVA\s+USD\s*([\d,]+\.?\d*)` (IGNORECASE). -/
def patVat1 : Rx :=
  .seq (rxStrI "IVA") (.seq (rPlus wsC) (.seq (rxStrI "USD") (.seq (rStar wsC) (.grp 1 numTok))))

/-- Line 359: `VAT[:\s]+\$?\s*([\d,]+\.?\d*)` (IGNORECASE). -/
def patVat2 : Rx :=
  .seq (rxStrI "VAT")
    (.seq (rPlus colonWsC) (.seq (rOpt (litC '$')) (.seq (rStar wsC) (.grp 1 numTok))))

/-- Line 204: `\b(\d{2})\s+(\d{5,})\b`. -/
def patInvPair : Rx :=
  .seq .wordB
    (.seq (.grp 1 (.rep digitC 2 (some 2) true))
      (.seq (rPlus wsC) (.seq (.grp 2 (.rep digitC 5 none true)) .wordB)))

/-- Line 210: `FACTURA\s+ELECTRONICA[^\n]*\n\s*(\d{2}\s+\d{5,})` (IGNORECASE). -/
def patFacturaElec : Rx :=
  .seq (rxStrI "FACTURA")
    (.seq (rPlus wsC)
      (.seq (rxStrI "ELECTRONICA")
        (.seq (rStar anyC)
          (.seq (litC '\n')
            (.seq (rStar wsC)
              (.grp 1 (.seq (.rep digitC 2 (some 2) true)
                (.seq (rPlus wsC) (.rep digitC 5 none true)))))))))

/-- Line 216: `^(\d{2})\s+(\d{5,})$` (via `re.match` on the stripped line). -/
def patLinePair : Rx :=
  .seq (.grp 1 (.rep digitC 2 (some 2) true))
    (.seq (rPlus wsC) (.seq (.grp 2 (.rep digitC 5 none true)) .eos))

/-- `[A-Z0-9\-]` under IGNORECASE. -/
def upAlphaNumDash : Rx :=
  .cls fun c => ('A' ≤ c ∧ c ≤ 'Z') || ('a' ≤ c ∧ c ≤ 'z') || c.isDigit || c = '-'

/-- Line 221: `Invoice[:\s]+([A-Z0-9\-]+)` (IGNORECASE | MULTILINE). -/
def patInvoiceLbl : Rx :=
  .seq (rxStrI "Invoice") (.seq (rPlus colonWsC) (.grp 1 (rPlus upAlphaNumDash)))

/-- Line 222: `Factura[:\s]+([A-Z0-9\-]+)` (IGNORECASE | MULTILINE). -/
def patFacturaLbl : Rx :=
  .seq (rxStrI "Factura") (.seq (rPlus colonWsC) (.grp 1 (rPlus upAlphaNumDash)))

/-- Line 223: `\b(INV-?\d{4,8})\b` (IGNORECASE | MULTILINE). -/
def patInvNum : Rx :=
  .seq .wordB
    (.seq (.grp 1 (.seq (rxStrI "INV") (.seq (rOpt (litC '-')) (.rep digitC 4 (some 8) true))))
      .wordB)

/-- Line 224: `No\.\s*Factura[:\s]*(\d{5,})` (IGNORECASE | MULTILINE). -/
def patNoFactura : Rx :=
  .seq (rxStrI "No")
    (.seq (litC '.')
      (.seq (rStar wsC)
        (.seq (rxStrI "Factura") (.seq (rStar colonWsC) (.grp 1 (.rep digitC 5 none true))))))

/-- `[-\/]` and `[/\-]`. -/
def dashSlashC : Rx := .cls fun c => c = '-' || c = '/'

/-- `(\d{4}[-\/]\d{2}[-\/]\d{2})`. -/
def ymdGroup : Rx := .grp 1
  (.seq (.rep digitC 4 (some 4) true)
    (.seq dashSlashC
      (.seq (.rep digitC 2 (some 2) true) (.seq dashSlashC (.rep digitC 2 (some 2) true)))))

/-- `(\d{2}[-\/]\d{2}[-\/]\d{4})`. -/
def dmyGroup : Rx := .grp 1
  (.seq (.rep digitC 2 (some 2) true)
    (.seq dashSlashC
      (.seq (.rep digitC 2 (some 2) true) (.seq dashSlashC (.rep digitC 4 (some 4) true)))))

/-- Line 238: `(\d{2}/\d{2}/\d{4})\s+\d{1,2}:\d{2}:\d{2}\s+[AP]M` (IGNORECASE). -/
def patDate1 : Rx :=
  .seq (.grp 1 (.seq (.rep digitC 2 (some 2) true)
    (.seq (litC '/') (.seq (.rep digitC 2 (some 2) true)
      (.seq (litC '/') (.rep digitC 4 (some 4) true))))))
    (.seq (rPlus wsC)
      (.seq (.rep digitC 1 (some 2) true)
        (.seq (litC ':')
          (.seq (.rep digitC 2 (some 2) true)
            (.seq (litC ':')
              (.seq (.rep digitC 2 (some 2) true)
                (.seq (rPlus wsC)
                  (.seq (.cls fun c => c.toLower = 'a' || c.toLower = 'p') (litCI 'M')))))))))

/-- Line 239: `Date[:\s]+(\d{4}[-\/]\d{2}[-\/]\d{2})` (IGNORECASE). -/
def patDate2 : Rx := .seq (rxStrI "Date") (.seq (rPlus colonWsC) ymdGroup)

/-- Line 240: `Date[:\s]+(\d{2}[-\/]\d{2}[-\/]\d{4})` (IGNORECASE). -/
def patDate3 : Rx := .seq (rxStrI "Date") (.seq (rPlus colonWsC) dmyGroup)

/-- Line 241: `FECHA[:\s]+(\d{2}[-\/]\d{2}[-\/]\d{4})` (IGNORECASE). -/
def patDate4 : Rx := .seq (rxStrI "FECHA") (.seq (rPlus colonWsC) dmyGroup)

/-- Line 242: `(\d{1,2}[/\-]\d{1,2}[/\-]\d{4})` (IGNORECASE). -/
def patDate5 : Rx := .grp 1
  (.seq (.rep digitC 1 (some 2) true)
    (.seq dashSlashC
      (.seq (.rep digitC 1 (some 2) true) (.seq dashSlashC (.rep digitC 4 (some 4) true)))))

/-- Line 266: `Seller:` (IGNORECASE). -/
def patSellerLbl : Rx := rxStrI "Seller:"

/-- Line 272: `SHIPPER:\s*(.+?)(?:ORIGEN|PORT|$)` (IGNORECASE). -/
def patShipper : Rx :=
  .seq (rxStrI "SHIPPER:")
    (.seq (rStar wsC)
      (.seq (.grp 1 (rPlusLazy anyC)) (rxAlts [rxStrI "ORIGEN", rxStrI "PORT", Rx.eos])))

/-- Line 276: `(Fabricante|Proveedor):\s*(.+)` (IGNORECASE). -/
def patFabricante : Rx :=
  .seq (.grp 1 (.alt (rxStrI "Fabricante") (rxStrI "Proveedor")))
    (.seq (litC ':') (.seq (rStar wsC) (.grp 2 (rPlus anyC))))

/-- Lines 284 and 157: `NIT[.\s]*[:\-]?\s*([\d\-.]+)` (IGNORECASE). -/
def patNitLbl : Rx :=
  .seq (rxStrI "NIT")
    (.seq (rStar (.cls fun c => c = '.' || c.isWhitespace))
      (.seq (rOpt (.cls fun c => c = ':' || c = '-'))
        (.seq (rStar wsC) (.grp 1 (rPlus (.cls fun c => c.isDigit || c = '-' || c = '.'))))))

/-- Line 285: `Tax\s*Id:\s*([0-9\-]+)` (IGNORECASE). -/
def patTaxId : Rx :=
  .seq (rxStrI "Tax")
    (.seq (rStar wsC)
      (.seq (rxStrI "Id:") (.seq (rStar wsC) (.grp 1 (rPlus (.cls fun c => c.isDigit || c = '-'))))))

/-- Line 286: `Nit:\s*([\d\-.]+)` (IGNORECASE). -/
def patNitColon : Rx :=
  .seq (rxStrI "Nit:")
    (.seq (rStar wsC) (.grp 1 (rPlus (.cls fun c => c.isDigit || c = '-' || c = '.'))))

/-- Line 298: `(CR|CALLE|CARRERA|AV|AVENIDA)\s+[\d\s\-]+(?:\s+\d+)?` (IGNORECASE). -/
def patAddr1 : Rx :=
  .seq (.grp 1 (rxAlts [rxStrI "CR", rxStrI "CALLE", rxStrI "CARRERA", rxStrI "AV", rxStrI "AVENIDA"]))
    (.seq (rPlus wsC)
      (.seq (rPlus (.cls fun c => c.isDigit || c.isWhitespace || c = '-'))
        (rOpt (.seq (rPlus wsC) (rPlus digitC)))))

/-- Line 299: `Direccion:\s*(.+)` (IGNORECASE). -/
def patDireccion : Rx := .seq (rxStrI "Direccion:") (.seq (rStar wsC) (.grp 1 (rPlus anyC)))

/-- Line 300: `Address:\s*(.+)` (IGNORECASE). -/
def patAddress : Rx := .seq (rxStrI "Address:") (.seq (rStar wsC) (.grp 1 (rPlus anyC)))

/-- Line 313: `\d+`. -/
def patAnyDigits : Rx := rPlus digitC

/-- Lines 394–398: `\bUSD\b`, `\bCOP\b`, `\bEUR\b` (IGNORECASE). -/
def patUSDw : Rx := .seq .wordB (.seq (rxStrI "USD") .wordB)
def patCOPw : Rx := .seq .wordB (.seq (rxStrI "COP") .wordB)
def patEURw : Rx := .seq .wordB (.seq (rxStrI "EUR") .wordB)

/-- Line 162: `(fabricante|proveedor|empresa|shipper)[:\.]?\s*(.{5,50})` (IGNORECASE). -/
def patProveedorFallback : Rx :=
  .seq (.grp 1 (rxAlts [rxStrI "fabricante", rxStrI "proveedor", rxStrI "empresa", rxStrI "shipper"]))
    (.seq (rOpt (.cls fun c => c = ':' || c = '.'))
      (.seq (rStar wsC) (.grp 2 (.rep anyC 5 (some 50) true))))

/-- Line 167: `\d{1,2}[\/\-]\d{1,2}[\/\-]\d{2,4}` (only the first `findall`
result is consumed, which is the first `re.search` match). -/
def patFechaNum : Rx :=
  .seq (.rep digitC 1 (some 2) true)
    (.seq dashSlashC
      (.seq (.rep digitC 1 (some 2) true) (.seq dashSlashC (.rep digitC 2 (some 4) true))))

/-- ASCII letter class `[A-Za-z]`. -/
def alphaC : Rx := .cls fun c => ('A' ≤ c ∧ c ≤ 'Z') || ('a' ≤ c ∧ c ≤ 'z')

/-- Line 169: `[A-Za-z]{3,}-\d{1,2}-\d{4}` (first result only). -/
def patFechaAlpha : Rx :=
  .seq (.rep alphaC 3 none true)
    (.seq (litC '-')
      (.seq (.rep digitC 1 (some 2) true) (.seq (litC '-') (.rep digitC 4 (some 4) true))))

/-! ### Extractor functions -/

/-- The extracted record: the dict built by `extract_semantic_data`
(lines 21–32). The amount fields are always strings in the source
(initially the sentinel `"0.00"`). -/
structure ExtractedData where
  numero_factura : Option String
  fecha_emision : Option String
  proveedor : Option String
  nit_proveedor : Option String
  direccion_proveedor : Option String
  subtotal : String
  impuestos : String
  total : String
  moneda : String
  items : List Item
deriving DecidableEq

/-- `_empty_invoice` (lines 187–199). -/
def emptyInvoice : ExtractedData :=
  { numero_factura := none
    fecha_emision := none
    proveedor := none
    nit_proveedor := none
    direccion_proveedor := none
    subtotal := "0.00"
    impuestos := "0.00"
    total := "0.00"
    moneda := "USD"
    items := [] }

/-- The marker scan of `_extract_items_from_table` (lines 408–417):
`items_start` is updated at every header line, the loop breaks at the
first summary line seen after a header. `-1` is the not-found sentinel. -/
def markerLoop : List String → ℕ → ℤ → ℤ × ℤ
  | [], _, istart => (istart, -1)
  | l :: ls, i, istart =>
    let istart' := if (reSearch patTableHeader l).isSome then ((i : ℤ) + 1) else istart
    if (reSearch patTableEnd l).isSome ∧ istart' > 0 then (istart', (i : ℤ))
    else markerLoop ls (i + 1) istart'

/-- `float(f"{a}.{b}")` for digit strings. -/
def mkDec (a b : String) : ℚ := (digitsVal a.toList : ℚ) + (digitsVal b.toList : ℚ) / 100

/-- The per-line body of `_extract_items_from_table` (lines 425–471). -/
def processLine (lines : List String) (iend : ℕ) (i : ℕ) : List Item :=
  let line := pyStrip (lines.getD i "")
  if line.length < 3 then []
  else if strContains "Tasa:" line || strContains "CUFE:" line
      || strContains "PRACTICAR" line then []
  else
    match reMatch patItemLine line with
    | some m => [⟨pyStrip (m.group 1), .str "N/A", .str "N/A", .str (pyStrip (m.group 2))⟩]
    | none =>
      match reMatch patItemNum line with
      | some m =>
        let descripcion := pyStrip (m.group 2)
        let searchText := joinLines ((lines.drop i).take (min 5 (iend - i)))
        match reSearch patCantidad searchText with
        | some cm =>
          let precios := reFindAll patPrecio searchText
          if precios.length ≥ 3 then
            match precios.head?, precios.getLast? with
            | some p0, some pl =>
              [⟨String.mk (descripcion.toList.take 100),
                .num (mkDec (cm.group 1) (cm.group 2)),
                .num (mkDec (capGroup p0 1) (capGroup p0 2)),
                .num (mkDec (capGroup pl 1) (capGroup pl 2))⟩]
            | _, _ => []
          else []
        | none => []
      | none => []

/-- `_extract_items_from_table` (lines 405–473). -/
def extractItemsFromTable (text : String) (lines : List String) : List Item :=
  let se := markerLoop lines 0 (-1)
  let istart : ℤ := if se.1 < 0 then 0 else se.1
  let iend : ℤ := if se.2 < 0 then (lines.length : ℤ) else se.2
  ((List.range' istart.toNat (iend.toNat - istart.toNat)).map
    (processLine lines iend.toNat)).flatten

/-- `str(item_total)` when the item total is numeric (lines 57–58). -/
def pyStrOfVal : PyVal → String
  | .str s => s
  | .num q => pyFloatRepr q

/-- The description normalisation of the totals scan (lines 54–61):
`.upper().strip()`, `.rstrip('.').strip()`, collapse `\s+` to one space. -/
def descKey (d : String) : String :=
  let d1 := pyStrip (pyUpper d)
  let d2 := pyStrip (String.mk (dropTrailingDots d1.toList))
  String.mk (collapseWsAux false d2.toList)

/-- The totals scan over the raw items (lines 52–76); returns
`(total_usd_value, subtotal_value, iva_value)`. The total/IVA slots take
the last match, the subtotal slot the first. -/
def scanTotals (items : List Item) : Option String × Option String × Option String :=
  items.foldl (fun acc item =>
    let desc := descKey item.descripcion
    let itemTotal := pyStrOfVal item.total
    if strContains "TOTAL USD" desc || desc = "TOTAL"
        || (strContains "TOTAL" desc && !strContains "SUB" desc) then
      (some itemTotal, acc.2.1, acc.2.2)
    else if strContains "SUB-TOTAL" desc || strContains "SUBTOTAL" desc
        || strContains "SUB TOTAL" desc then
      (acc.1, (if acc.2.1.isNone then some itemTotal else acc.2.1), acc.2.2)
    else if strContains "IVA" desc then (acc.1, acc.2.1, some itemTotal)
    else acc) (none, none, none)

/-- `.replace(',', '').replace(' ', '')` (lines 330, 343, 365, 385). -/
def cleanNum (s : String) : String := removeChar ' ' (removeChar ',' s)

/-- The pattern loop shared by `_extract_net_worth`, `_extract_vat` and
`_extract_gross_worth`: first pattern whose match parses as a float wins
(a match whose float conversion fails falls through to the next
pattern). -/
def tryAmountPatterns : List Rx → String → Option ℚ
  | [], _ => none
  | p :: rest, summary =>
    match reSearch p summary with
    | some m =>
      match pyFloat (cleanNum (m.group 1)) with
      | some v => some v
      | none => tryAmountPatterns rest summary
    | none => tryAmountPatterns rest summary

/-- `_extract_gross_worth` (lines 373–391): last 10 lines. -/
def extractGrossWorth (text : String) (lines : List String) : Option ℚ :=
  tryAmountPatterns [patGross1, patGross2, patGross3] (joinLines (lastN 10 lines))

/-- `_extract_net_worth` (lines 318–336): last 15 lines. -/
def extractNetWorth (text : String) (lines : List String) : Option ℚ :=
  tryAmountPatterns [patNet1, patNet2, patNet3] (joinLines (lastN 15 lines))

/-- The anchored per-line loop of `_extract_vat` (lines 339–347). -/
def vatLineLoop : List String → Option ℚ
  | [] => none
  | line :: rest =>
    if (reMatch patVatLineAnchored (pyStrip line)).isSome then
      match reSearch patNumEnd line with
      | some m =>
        match pyFloat (cleanNum (m.group 1)) with
        | some v => some v
        | none => vatLineLoop rest
      | none => vatLineLoop rest
    else vatLineLoop rest

/-- Lines 349–353: collect lines up to the first `Tasa:`/`CUFE:` line. -/
def takeUntilBreak : List String → List String
  | [] => []
  | l :: ls =>
    if strContains "Tasa:" l || strContains "CUFE:" l then []
    else l :: takeUntilBreak ls

/-- `_extract_vat` (lines 338–371). -/
def extractVat (text : String) (lines : List String) : Option ℚ :=
  match vatLineLoop lines with
  | some v => some v
  | none => tryAmountPatterns [patVat1, patVat2] (joinLines (lastN 15 (takeUntilBreak lines)))

/-- The per-line loop of `_extract_invoice_number` (lines 214–218). -/
def invNumLineLoop : List String → Option String
  | [] => none
  | l :: ls =>
    match reMatch patLinePair (pyStrip l) with
    | some m => some (m.group 1 ++ m.group 2)
    | none => invNumLineLoop ls

/-- The labelled-pattern loop of `_extract_invoice_number` (lines 220–230). -/
def invNumPatternsLoop : List Rx → String → Option String
  | [], _ => none
  | p :: rest, header =>
    match reSearch p header with
    | some m => some (removeChar ' ' (m.group 1))
    | none => invNumPatternsLoop rest header

/-- `_extract_invoice_number` (lines 201–232). Note the final fallback
returns the constant string `"ELECTRONICA"`, never `None`. -/
def extractInvoiceNumber (text : String) (lines : List String) : String :=
  let header := joinLines (lines.take 25)
  let step1 : Option String :=
    match reSearch patInvPair header with
    | some m =>
      let facturaNum := m.group 1 ++ m.group 2
      let idx := (strFind m.matched.toList header.toList).getD 0
      if strContains "FACTURA" (String.mk (header.toList.take (idx + 100))) then
        some facturaNum
      else none
    | none => none
  match step1 with
  | some v => v
  | none =>
    match reSearch patFacturaElec header with
    | some m => removeChar ' ' (m.group 1)
    | none =>
      match invNumLineLoop (lines.take 25) with
      | some v => v
      | none =>
        match invNumPatternsLoop [patInvoiceLbl, patFacturaLbl, patInvNum, patNoFactura] header with
        | some v => v
        | none => "ELECTRONICA"

/-- The date reformatting of `_extract_date` (lines 249–260):
`mes, dia, anio = parts` and the result is `anio-mes(zfill)-dia(zfill)`. -/
def reformatDate (dateStr : String) : Option String :=
  if dateStr.toList.contains '/' || dateStr.toList.contains '-' then
    match (splitBy (fun c => c = '-' || c = '/') dateStr.toList).map String.mk with
    | [a, b, c] =>
      if a.length = 4 then some (a ++ "-" ++ b ++ "-" ++ c)
      else if c.length = 4 then some (c ++ "-" ++ zfill2 a ++ "-" ++ zfill2 b)
      else none
    | _ => none
  else none

/-- The pattern loop of `_extract_date` (lines 245–260): a match whose
reformatting does not return falls through to the next pattern. -/
def dateLoop : List Rx → String → Option String
  | [], _ => none
  | p :: rest, header =>
    match reSearch p header with
    | some m =>
      match reformatDate (m.group 1) with
      | some r => some r
      | none => dateLoop rest header
    | none => dateLoop rest header

/-- `_extract_date` (lines 234–262): first 20 lines. -/
def extractDate (text : String) (lines : List String) : Option String :=
  dateLoop [patDate1, patDate2, patDate3, patDate4, patDate5] (joinLines (lines.take 20))

/-- The `Seller:` loop of `_extract_provider` (lines 265–270). -/
def sellerProvLoop (allLines : List String) : ℕ → List String → Option String
  | _, [] => none
  | i, l :: ls =>
    if (reSearch patSellerLbl l).isSome ∧ i + 1 < allLines.length then
      let provider := pyStrip (allLines.getD (i + 1) "")
      if provider ≠ "" ∧ provider.length > 3 then some provider
      else sellerProvLoop allLines (i + 1) ls
    else sellerProvLoop allLines (i + 1) ls

/-- `_extract_provider` (lines 264–280). -/
def extractProvider (text : String) (lines : List String) : Option String :=
  match sellerProvLoop lines 0 (lines.take 10) with
  | some p => some p
  | none =>
    match reSearch patShipper text with
    | some m => some (pyStrip (m.group 1))
    | none =>
      match reSearch patFabricante text with
      | some m => some (pyStrip (m.group 2))
      | none => none

/-- `_extract_client_nit` (lines 282–294). -/
def extractClientNit (text : String) (lines : List String) : Option String :=
  match reSearch patNitLbl text with
  | some m => some (pyStrip (m.group 1))
  | none =>
    match reSearch patTaxId text with
    | some m => some (pyStrip (m.group 1))
    | none =>
      match reSearch patNitColon text with
      | some m => some (pyStrip (m.group 1))
      | none => none

/-- The `Seller:` address fallback of `_extract_address` (lines 309–314). -/
def sellerAddrLoop (allLines : List String) : ℕ → List String → Option String
  | _, [] => none
  | i, l :: ls =>
    if (reSearch patSellerLbl l).isSome ∧ i + 2 < allLines.length then
      let addr := pyStrip (allLines.getD (i + 2) "")
      if (reSearch patAnyDigits addr).isSome then some addr
      else sellerAddrLoop allLines (i + 1) ls
    else sellerAddrLoop allLines (i + 1) ls

/-- `_extract_address` (lines 296–316): the first pattern keeps the whole
match (`group(0)`), the labelled ones keep group 1; all are stripped and
cut to 100 characters. -/
def extractAddress (text : String) (lines : List String) : Option String :=
  match reSearch patAddr1 text with
  | some m => some (String.mk ((pyStrip m.matched).toList.take 100))
  | none =>
    match reSearch patDireccion text with
    | some m => some (String.mk ((pyStrip (m.group 1)).toList.take 100))
    | none =>
      match reSearch patAddress text with
      | some m => some (String.mk ((pyStrip (m.group 1)).toList.take 100))
      | none => sellerAddrLoop lines 0 (lines.take 10)

/-- `_extract_currency` (lines 393–403). -/
def extractCurrency (text : String) : String :=
  if (reSearch patUSDw text).isSome then "USD"
  else if (reSearch patCOPw text).isSome then "COP"
  else if text.toList.contains '€' || (reSearch patEURw text).isSome then "EUR"
  else if text.toList.contains '$' then "USD"
  else "USD"

/-- `extract_semantic_data` (lines 9–173). The normalisation step of
lines 141–153 is the identity here because every item built above is a
dict. The `print` calls of the source are side-effect-free logging and
are not modelled. -/
def extractSemanticData (text : String) : ExtractedData :=
  if text = "" then emptyInvoice
  else
    let lines := splitLines text
    let items0 := extractItemsFromTable text lines
    let scanned := scanTotals items0
    let total0 := match scanned.1 with
      | some s => if s = "" then "0.00" else s
      | none => "0.00"
    let subtotal0 := match scanned.2.1 with
      | some s => if s = "" then "0.00" else s
      | none => "0.00"
    let impuestos0 := match scanned.2.2 with
      | some s => if s = "" then "0.00" else s
      | none => "0.00"
    let items1 := items0.filter fun it =>
      (reSearch patSummaryWord5 (pyUpper it.descripcion)).isNone
    let total1 :=
      if total0 = "0.00" then
        match extractGrossWorth text lines with
        | some v => pyFloatRepr v
        | none =>
          match pyFloat (removeChar ',' subtotal0), pyFloat (removeChar ',' impuestos0) with
          | some a, some b => if a + b > 0 then formatF2 (a + b) else total0
          | _, _ => total0
      else total0
    let subtotal1 :=
      if subtotal0 = "0.00" then
        match extractNetWorth text lines with
        | some v => pyFloatRepr v
        | none => subtotal0
      else subtotal0
    let impuestos1 :=
      if impuestos0 = "0.00" then
        match extractVat text lines with
        | some v => pyFloatRepr v
        | none => impuestos0
      else impuestos0
    let items2 :=
      if items1.isEmpty then
        (reFindAll patFallbackItem text).filterMap fun g =>
          let desc := pyStrip (capGroup g 1)
          if (reSearch patSummaryWord4 desc).isSome then none
          else some ⟨desc, .str "N/A", .str "N/A", .str (pyStrip (capGroup g 2))⟩
      else items1
    let nit0 := extractClientNit text lines
    let nit1 :=
      if (match nit0 with | none => true | some s => s = "") then
        match reSearch patNitLbl text with
        | some m => some (pyStrip (m.group 1))
        | none => nit0
      else nit0
    let prov0 := extractProvider text lines
    let prov1 :=
      if (match prov0 with | none => true | some s => s = "") then
        match reSearch patProveedorFallback text with
        | some m => some (pyStrip (m.group 2))
        | none => prov0
      else prov0
    let fecha0 := extractDate text lines
    let fecha1 :=
      if (match fecha0 with | none => true | some s => s = "") then
        match reSearch patFechaNum text with
        | some m => some m.matched
        | none =>
          match reSearch patFechaAlpha text with
          | some m => some m.matched
          | none => fecha0
      else fecha0
    { numero_factura := some (extractInvoiceNumber text lines)
      fecha_emision := fecha1
      proveedor := prov1
      nit_proveedor := nit1
      direccion_proveedor := extractAddress text lines
      subtotal := subtotal1
      impuestos := impuestos1
      total := total1
      moneda := extractCurrency text
      items := items2 }

/-- The dict the validator receives when `validate_invoice` is applied to
the semantic extractor's output: the extractor produces keys
`nit_proveedor` and `impuestos`, while the validator reads `nit_emisor`,
`iva`, `cufe`, `actividad_economica`, `retencion_fuente` and
`fecha_limite_pago`; those keys are absent, so `data.get` yields the
defaults. -/
def dictOfExtracted (e : ExtractedData) : InvoiceData :=
  { fecha_emision := e.fecha_emision
    nit_emisor := none
    cufe := none
    subtotal := .str e.subtotal
    iva := .num 0
    total := .str e.total
    items := e.items
    actividad_economica := none
    retencion_fuente := .num 0
    fecha_limite_pago := none
    numero_factura := e.numero_factura
    proveedor := e.proveedor }

/-- The scenario input of the spec (thousands-dot locale, two item lines
summing to 900.000). -/
def scenarioText : String :=
  "FACTURA DE VENTA\nProducto A 450.000\nProducto B 450.000\nSubtotal: 900.000\nIVA (19%): 171.000\nTOTAL: 1.071.000"

/-- A record whose items list is empty and every other field absent. -/
def noItemsData : InvoiceData :=
  ⟨none, none, none, .num 0, .num 0, .num 0, [], none, .num 0, none, none, none⟩

/-! ## Helper lemmas: every rule's finding satisfies
severity = error → valid = false -/

lemma ok_fecha (now : ℚ) (f : Option String) :
    (!((validateFechaEmision now f).severity == Severity.error)
      || !(validateFechaEmision now f).valid) = true := by
  unfold validateFechaEmision
  try dsimp only
  repeat' split
  all_goals rfl

lemma ok_nit (n : Option String) :
    (!((validateNit n).severity == Severity.error) || !(validateNit n).valid) = true := by
  unfold validateNit
  try dsimp only
  repeat' split
  all_goals rfl

lemma ok_cufe (c : Option String) :
    (!((validateCufe c).severity == Severity.error) || !(validateCufe c).valid) = true := by
  unfold validateCufe
  try dsimp only
  repeat' split
  all_goals rfl

lemma ok_totales (s i t : PyVal) :
    (!((validateTotales s i t).severity == Severity.error)
      || !(validateTotales s i t).valid) = true := by
  unfold validateTotales
  try dsimp only
  repeat' split
  all_goals rfl

lemma ok_iva (s i : PyVal) :
    (!((validateIvaPorcentaje s i).severity == Severity.error)
      || !(validateIvaPorcentaje s i).valid) = true := by
  unfold validateIvaPorcentaje
  try dsimp only
  repeat' split
  all_goals rfl

lemma ok_items (items : List Item) (s : PyVal) :
    (!((validateSumaItems items s).severity == Severity.error)
      || !(validateSumaItems items s).valid) = true := by
  unfold validateSumaItems
  try dsimp only
  repeat' split
  all_goals rfl

lemma ok_actividad (kb : Option KB) (a : Option String) :
    (!((validateActividadEconomica kb a).severity == Severity.error)
      || !(validateActividadEconomica kb a).valid) = true := by
  unfold validateActividadEconomica
  try dsimp only
  repeat' split
  all_goals rfl

lemma ok_retencion (r s : PyVal) :
    (!((validateRetencionFuente r s).severity == Severity.error)
      || !(validateRetencionFuente r s).valid) = true := by
  unfold validateRetencionFuente
  try dsimp only
  repeat' split
  all_goals rfl

lemma ok_fecha_pago (e l : Option String) :
    (!((validateFechaLimitePago e l).severity == Severity.error)
      || !(validateFechaLimitePago e l).valid) = true := by
  unfold validateFechaLimitePago
  try dsimp only
  repeat' split
  all_goals rfl

lemma ok_resolucion (kb : Option KB) (n p : Option String) :
    (!((validateResolucionDian kb n p).severity == Severity.error)
      || !(validateResolucionDian kb n p).valid) = true := by
  unfold validateResolucionDian
  try dsimp only
  repeat' split
  all_goals rfl

lemma allFindings_ok (now : ℚ) (kb : Option KB) (d : InvoiceData) :
    ∀ v ∈ allFindings now kb d,
      (!(v.severity == Severity.error) || !v.valid) = true := by
  intro v hv
  simp only [allFindings, List.mem_cons, List.not_mem_nil, or_false] at hv
  rcases hv with rfl | rfl | rfl | rfl | rfl | rfl | rfl | rfl | rfl | rfl
  · exact ok_fecha now d.fecha_emision
  · exact ok_nit d.nit_emisor
  · exact ok_cufe d.cufe
  · exact ok_totales d.subtotal d.iva d.total
  · exact ok_iva d.subtotal d.iva
  · exact ok_items d.items d.subtotal
  · exact ok_actividad kb d.actividad_economica
  · exact ok_retencion d.retencion_fuente d.subtotal
  · exact ok_fecha_pago d.fecha_emision d.fecha_limite_pago
  · exact ok_resolucion kb d.numero_factura d.proveedor

lemma error_implies_failed {f : Finding}
    (h : (!(f.severity == Severity.error) || !f.valid) = true) :
    f.severity = Severity.error → f.valid = false := by
  intro he
  cases hv : f.valid
  · rfl
  · rw [hv] at h
    simp [he] at h

/-- When severity error implies failure pointwise, the error list (failed
findings with severity error) is empty exactly when no finding has
severity error. -/
lemma errors_isEmpty_eq (l : List Finding)
    (h : ∀ v ∈ l, (!(v.severity == Severity.error) || !v.valid) = true) :
    ((l.filter fun v => !v.valid && v.severity == Severity.error).length == 0) =
      (l.all fun v => v.severity != Severity.error) := by
  induction l with
  | nil => rfl
  | cons a t ih =>
    have ha := h a (by simp)
    have ht : ∀ v ∈ t, (!(v.severity == Severity.error) || !v.valid) = true :=
      fun v hv => h v (by simp [hv])
    by_cases hsev : (a.severity == Severity.error) = true
    · have hval : a.valid = false := error_implies_failed ha (by simpa using hsev)
      simp [List.filter_cons, List.all_cons, hsev, hval]
      exact fun hcon => absurd (by simpa using hsev) hcon
    · have hsev' : (a.severity == Severity.error) = false := by
        simpa using hsev
      simp [List.filter_cons, List.all_cons, hsev', ih ht]
      exact fun _ => by simpa using hsev'

lemma recommendationOf_cases (a b : Bool) :
    recommendationOf a b = "✅ Factura lista para procesamiento"
    ∨ recommendationOf a b = "⚠️ Factura válida con advertencias menores"
    ∨ recommendationOf a b = "❌ Factura requiere revisión manual" := by
  cases a <;> cases b <;> simp [recommendationOf]

/-! ## The claims -/

/-- C1: for every input record (and any clock and optional knowledge
base), `validate_invoice` returns a report whose `validations` list has
exactly 10 findings and whose `total_validations` field equals 10,
regardless of which fields are present, absent or malformed. -/
theorem claim_C1_report_has_ten_findings (now : ℚ) (kb : Option KB) (d : InvoiceData) :
    (validateInvoice now kb d).validations.length = 10 ∧
      (validateInvoice now kb d).total_validations = 10 :=
  ⟨rfl, rfl⟩

/-- C10: for every input record, every finding in the report satisfies the
invariant that severity `error` implies `passed = false`; equivalently a
finding with `passed = true` always has severity `success` or `warning`. -/
theorem claim_C10_error_severity_invariant (now : ℚ) (kb : Option KB) (d : InvoiceData) :
    ((validateInvoice now kb d).validations.all
      fun v => !(v.severity == Severity.error) || !v.valid) = true := by
  show ((allFindings now kb d).all fun v => !(v.severity == Severity.error) || !v.valid) = true
  rw [List.all_eq_true]
  exact allFindings_ok now kb d

/-- C2: the aggregation of `validate_invoice`: the `valid` flag is true
exactly when no finding has severity `error`; `confidence_score` is the
number of passed findings divided by the total number of findings and lies
in [0, 1]; and the recommendation is one of exactly three strings,
determined only by the emptiness of the error and warning lists (not by
the numeric score). -/
theorem claim_C2_aggregation (now : ℚ) (kb : Option KB) (d : InvoiceData) :
    ((validateInvoice now kb d).valid =
      ((validateInvoice now kb d).validations.all fun v => v.severity != Severity.error))
    ∧ (validateInvoice now kb d).confidence_score =
        ((validateInvoice now kb d).passed_validations : ℚ) /
          ((validateInvoice now kb d).total_validations : ℚ)
    ∧ (0 ≤ (validateInvoice now kb d).confidence_score
        ∧ (validateInvoice now kb d).confidence_score ≤ 1)
    ∧ (validateInvoice now kb d).recommendation =
        recommendationOf ((validateInvoice now kb d).errors.length == 0)
          ((validateInvoice now kb d).warnings.length == 0)
    ∧ ((validateInvoice now kb d).recommendation = "✅ Factura lista para procesamiento"
        ∨ (validateInvoice now kb d).recommendation = "⚠️ Factura válida con advertencias menores"
        ∨ (validateInvoice now kb d).recommendation = "❌ Factura requiere revisión manual") := by
  have hc : (validateInvoice now kb d).confidence_score =
      ((((allFindings now kb d).filter fun v => v.valid).length : ℚ) / ((10 : ℕ) : ℚ)) := rfl
  have hlen : (((allFindings now kb d).filter fun v => v.valid).length) ≤ 10 := by
    simpa [allFindings] using
      List.length_filter_le (fun v => v.valid) (allFindings now kb d)
  refine ⟨?_, rfl, ⟨?_, ?_⟩, rfl, ?_⟩
  · exact errors_isEmpty_eq (allFindings now kb d) (allFindings_ok now kb d)
  · rw [hc]
    positivity
  · rw [hc]
    rw [div_le_one (by norm_num : (0 : ℚ) < ((10 : ℕ) : ℚ))]
    exact_mod_cast hlen
  · exact recommendationOf_cases _ _

lemma toQ_num (q : ℚ) : (PyVal.num q).toQ = some q := by
  unfold PyVal.toQ PyVal.truthy
  by_cases h : q = 0 <;> simp [h]

/-- C3: rule 4 (totals coherence). A zero (or absent, which `data.get`
turns into 0) total gives severity error whatever the other fields hold;
for a non-zero total, a discrepancy `|subtotal + tax - total|` beyond
`total * 0.01` gives severity error; within that tolerance the finding
passes. -/
theorem claim_C3_totales_rule :
    (∀ s i : PyVal, (validateTotales s i (.num 0)).severity = Severity.error ∧
        (validateTotales s i (.num 0)).valid = false)
    ∧ (∀ s i t : ℚ, t ≠ 0 → |s + i - t| > t * 0.01 →
        (validateTotales (.num s) (.num i) (.num t)).severity = Severity.error ∧
          (validateTotales (.num s) (.num i) (.num t)).valid = false)
    ∧ (∀ s i t : ℚ, t ≠ 0 → ¬(|s + i - t| > t * 0.01) →
        (validateTotales (.num s) (.num i) (.num t)).valid = true ∧
          (validateTotales (.num s) (.num i) (.num t)).severity = Severity.success) := by
  refine ⟨?_, ?_, ?_⟩
  · intro s i
    unfold validateTotales
    rw [toQ_num]
    rcases hs : s.toQ with _ | q1 <;> rcases hi : i.toQ with _ | q2 <;> simp_all
  · intro s i t ht hgt
    unfold validateTotales
    rw [toQ_num, toQ_num, toQ_num]
    try dsimp only
    rw [if_neg ht, if_pos hgt]
    exact ⟨rfl, rfl⟩
  · intro s i t ht hle
    unfold validateTotales
    rw [toQ_num, toQ_num, toQ_num]
    try dsimp only
    rw [if_neg ht, if_neg hle]
    exact ⟨rfl, rfl⟩

theorem claim_C3_totales_rule_witness :
    (validateTotales (.num 0) (.num 0) (.num 100)).severity = Severity.error ∧
    (validateTotales (.num 90) (.num 10) (.num 100)).valid = true :=
  ⟨(claim_C3_totales_rule.2.1 0 0 100 (by norm_num)
      (by rw [show |(0 : ℚ) + 0 - 100| = 100 by rw [abs_of_nonpos] <;> norm_num]; norm_num)).1,
   (claim_C3_totales_rule.2.2 90 10 100 (by norm_num)
      (by rw [show |(90 : ℚ) + 10 - 100| = 0 by norm_num]; norm_num)).1⟩

/-- C4: rule 2 (tax id). An absent tax id (`None`, `''` or `'N/A'`) is an
error; a tax id with at least 10 digits whose declared last digit equals
the check digit computed by `_calcular_digito_verificacion` over the
preceding digits passes; a mismatching declared check digit gives
severity warning, not error. -/
theorem claim_C4_nit_rule :
    (∀ n : Option String, n = none ∨ n = some "" ∨ n = some "N/A" →
        (validateNit n).severity = Severity.error ∧ (validateNit n).valid = false)
    ∧ (∀ s : String, (nitDigits s).length ≥ 10 →
        digitVal ((nitDigits s).getLastD '0') =
          calcularDigitoVerificacion (String.mk (nitDigits s).dropLast) →
        (validateNit (some s)).valid = true ∧
          (validateNit (some s)).severity = Severity.success)
    ∧ (∀ s : String, (nitDigits s).length ≥ 10 →
        digitVal ((nitDigits s).getLastD '0') ≠
          calcularDigitoVerificacion (String.mk (nitDigits s).dropLast) →
        (validateNit (some s)).severity = Severity.warning ∧
          (validateNit (some s)).valid = false) := by
  have habs : ∀ s : String, (nitDigits s).length ≥ 10 → strAbsent (some s) = false := by
    intro s hlen
    have h1 : ¬ s = "" := by rintro rfl; exact absurd hlen (by decide)
    have h2 : ¬ s = "N/A" := by rintro rfl; exact absurd hlen (by decide)
    simp [strAbsent, h1, h2]
  refine ⟨?_, ?_, ?_⟩
  · rintro n (rfl | rfl | rfl) <;> exact ⟨rfl, rfl⟩
  · intro s hlen hdv
    unfold validateNit
    rw [habs s hlen]
    simp only [Bool.false_eq_true, if_false, Option.getD_some]
    rw [if_neg (by omega : ¬ (nitDigits s).length < 9), if_pos hlen]
    try dsimp only
    rw [if_neg (fun hcon => hcon hdv)]
    exact ⟨rfl, rfl⟩
  · intro s hlen hdv
    unfold validateNit
    rw [habs s hlen]
    simp only [Bool.false_eq_true, if_false, Option.getD_some]
    rw [if_neg (by omega : ¬ (nitDigits s).length < 9), if_pos hlen]
    try dsimp only
    rw [if_pos hdv]
    exact ⟨rfl, rfl⟩

theorem claim_C4_nit_rule_witness :
    (validateNit (some "")).severity = Severity.error ∧
    (validateNit (some "8001972681")).valid = true ∧
    (validateNit (some "8001972680")).severity = Severity.warning :=
  ⟨(claim_C4_nit_rule.1 (some "") (Or.inr (Or.inl rfl))).1,
   (claim_C4_nit_rule.2.1 "8001972681" (by decide) (by decide)).1,
   (claim_C4_nit_rule.2.2 "8001972680" (by decide) (by decide)).1⟩

/-- C5: rule 5 (tax-rate ceiling). With a non-positive subtotal the rule
returns a warning finding without evaluating the ratio (the division is
guarded, and a conversion failure on the tax field is caught, also as a
warning — the rule never raises); with a positive subtotal the severity is
error exactly when `tax / subtotal * 100` exceeds `19.5` (the 19% ceiling
plus 0.5% slack); a rate within the ceiling farther than one percentage
point from each standard rate 0, 5, 19 yields a passing warning. -/
theorem claim_C5_iva_rule :
    (∀ q : ℚ, q ≤ 0 → ∀ i : PyVal,
        (validateIvaPorcentaje (.num q) i).severity = Severity.warning)
    ∧ (∀ q r : ℚ, 0 < q →
        ((validateIvaPorcentaje (.num q) (.num r)).severity = Severity.error ↔
          r / q * 100 > 19.5))
    ∧ (∀ q r : ℚ, 0 < q → ¬(r / q * 100 > 19.5) →
        |r / q * 100 - 0| > 1 → |r / q * 100 - 5| > 1 → |r / q * 100 - 19| > 1 →
        (validateIvaPorcentaje (.num q) (.num r)).severity = Severity.warning ∧
          (validateIvaPorcentaje (.num q) (.num r)).valid = true) := by
  refine ⟨?_, ?_, ?_⟩
  · intro q hq i
    unfold validateIvaPorcentaje
    rw [toQ_num]
    rcases hi : i.toQ with _ | r
    · rfl
    · try dsimp only
      rw [if_pos hq]
  · intro q r hq
    unfold validateIvaPorcentaje
    rw [toQ_num, toQ_num]
    try dsimp only
    rw [if_neg (not_le.mpr hq)]
    by_cases hgt : r / q * 100 > 19.5
    · rw [if_pos hgt]
      simpa using hgt
    · rw [if_neg hgt]
      try dsimp only
      constructor
      · intro hsev
        split at hsev <;> simp at hsev
      · intro hg
        exact absurd hg hgt
  · intro q r hq hle h0 h5 h19
    unfold validateIvaPorcentaje
    rw [toQ_num, toQ_num]
    try dsimp only
    rw [if_neg (not_le.mpr hq), if_neg hle]
    try dsimp only
    have hfar : |r / q * 100 - pymin (fun x => |x - r / q * 100|) [0, 5, 19]| > 1 := by
      unfold pymin
      dsimp only [List.foldl]
      split_ifs <;> assumption
    rw [if_pos hfar]
    exact ⟨rfl, rfl⟩

theorem claim_C5_iva_rule_witness :
    (validateIvaPorcentaje (.num 0) (.num 5)).severity = Severity.warning ∧
    (validateIvaPorcentaje (.num 100) (.num 25)).severity = Severity.error ∧
    (validateIvaPorcentaje (.num 100) (.num 10)).severity = Severity.warning :=
  ⟨claim_C5_iva_rule.1 0 le_rfl (.num 5),
   (claim_C5_iva_rule.2.1 100 25 (by norm_num)).mpr (by norm_num),
   (claim_C5_iva_rule.2.2 100 10 (by norm_num) (by norm_num)
      (by rw [show |(10 : ℚ) / 100 * 100 - 0| = 10 by rw [abs_of_nonneg] <;> norm_num]; norm_num)
      (by rw [show |(10 : ℚ) / 100 * 100 - 5| = 5 by rw [abs_of_nonneg] <;> norm_num]; norm_num)
      (by rw [show |(10 : ℚ) / 100 * 100 - 19| = 9 by rw [abs_of_nonpos] <;> norm_num];
          norm_num)).1⟩

/-- C6 (amended): rule 6 (line-item sum). When items exist and their
summed totals deviate from the subtotal by more than
`max (subtotal * 0.02) 1`, the finding has severity warning (and indeed no
branch of the rule ever yields severity error); when no items were parsed
the rule still produces a finding, with `passed = true` and severity
warning, rather than producing no finding. -/
theorem claim_C6_item_sum_amended :
    (∀ (items : List Item) (s : ℚ), items ≠ [] → sumaItems items ≠ 0 →
        |sumaItems items - s| > max (s * 0.02) 1 →
        (validateSumaItems items (.num s)).severity = Severity.warning ∧
          (validateSumaItems items (.num s)).valid = false)
    ∧ (∀ (items : List Item) (s : PyVal),
        (validateSumaItems items s).severity ≠ Severity.error)
    ∧ (∀ s : PyVal, (validateSumaItems [] s).valid = true ∧
        (validateSumaItems [] s).severity = Severity.warning) := by
  refine ⟨?_, ?_, ?_⟩
  · intro items s hne hsum hgt
    unfold validateSumaItems
    have hni : items.isEmpty = false := by
      cases items
      · exact absurd rfl hne
      · rfl
    rw [hni]
    simp only [Bool.false_eq_true, if_false]
    rw [toQ_num]
    dsimp only
    rw [if_neg hsum, if_pos hgt]
    exact ⟨rfl, rfl⟩
  · intro items s
    unfold validateSumaItems
    split
    · simp
    · split
      · simp
      · dsimp only
        split
        · simp
        · split <;> simp
  · intro s
    exact ⟨rfl, rfl⟩

theorem claim_C6_item_sum_amended_witness :
    (validateSumaItems [⟨"FLETE", .str "N/A", .str "N/A", .str "500"⟩] (.num 100)).severity
      = Severity.warning ∧
    (validateSumaItems [] (.num 0)).valid = true := by
  have h500 : sumaItems [⟨"FLETE", .str "N/A", .str "N/A", .str "500"⟩] = 500 := by
    with_unfolding_all rfl
  refine ⟨(claim_C6_item_sum_amended.1 _ 100 (by simp) ?_ ?_).1,
    (claim_C6_item_sum_amended.2.2 (.num 0)).1⟩
  · rw [h500]
    norm_num
  · rw [h500]
    rw [show |(500 : ℚ) - 100| = 400 by rw [abs_of_nonneg] <;> norm_num]
    rw [show ((100 : ℚ) * 0.02) = 2 by norm_num]
    rw [max_eq_left (by norm_num : (1 : ℚ) ≤ 2)]
    norm_num

/-- C6 counterexample: the claim says rule 6 produces no finding when no
items were parsed; on a record with an empty items list the report still
has ten findings, and the sixth (index 5) is the item-sum finding, a
passing warning. -/
theorem claim_C6_counterexample :
    (validateInvoice 0 none noItemsData).validations.length = 10 ∧
    (validateInvoice 0 none noItemsData).validations.get? 5 =
      some ⟨"Suma de Ítems", true, Severity.warning⟩ ∧
    noItemsData.items = [] := by
  with_unfolding_all exact ⟨rfl, rfl, rfl⟩

/-- C7 counterexample: the record extracted from empty text does not have
every field null — the amount fields hold the sentinel string `"0.00"`
and the currency the default `"USD"` (these fields are strings, never
null, throughout `extract_semantic_data`). -/
theorem claim_C7_counterexample :
    (extractSemanticData "").subtotal = "0.00" ∧
    (extractSemanticData "").total = "0.00" ∧
    (extractSemanticData "").moneda = "USD" :=
  ⟨rfl, rfl, rfl⟩

/-- C7 (amended): empty input text produces `_empty_invoice`: the
identity fields (invoice number, date, supplier, tax id, address) null,
zero items, the amount fields the sentinel `"0.00"` and currency `"USD"`;
validating that record (whatever the clock and knowledge base) yields
`overall_valid = false`, with the issue-date, tax-id and totals findings
each failing with severity error. -/
theorem claim_C7_empty_input_amended (now : ℚ) (kb : Option KB) :
    extractSemanticData "" = emptyInvoice
    ∧ emptyInvoice.numero_factura = none
    ∧ emptyInvoice.fecha_emision = none
    ∧ emptyInvoice.proveedor = none
    ∧ emptyInvoice.nit_proveedor = none
    ∧ emptyInvoice.direccion_proveedor = none
    ∧ emptyInvoice.items = []
    ∧ emptyInvoice.subtotal = "0.00"
    ∧ emptyInvoice.impuestos = "0.00"
    ∧ emptyInvoice.total = "0.00"
    ∧ emptyInvoice.moneda = "USD"
    ∧ (validateInvoice now kb (dictOfExtracted (extractSemanticData ""))).valid = false
    ∧ (validateInvoice now kb (dictOfExtracted (extractSemanticData ""))).validations.get? 0 =
        some ⟨"Fecha de Emisión", false, Severity.error⟩
    ∧ (validateInvoice now kb (dictOfExtracted (extractSemanticData ""))).validations.get? 1 =
        some ⟨"NIT Emisor", false, Severity.error⟩
    ∧ (validateInvoice now kb (dictOfExtracted (extractSemanticData ""))).validations.get? 3 =
        some ⟨"Coherencia de Totales", false, Severity.error⟩ := by
  with_unfolding_all
    exact ⟨rfl, rfl, rfl, rfl, rfl, rfl, rfl, rfl, rfl, rfl, rfl, rfl, rfl, rfl, rfl⟩

/-- C8: on the spec's thousands-dot scenario text, extraction does not
yield `subtotal = 900000.00`, `tax_amount = 171000.00`,
`total = 1071000.00`: the extractor stores `subtotal` as the raw string
`"900.000"` and `impuestos` as `"171.000"` (whose `float()` values are
900 and 171, a thousandfold too small), and the total fallback pattern
`Total[:\s]+...` matches inside the word `Subtotal`, storing
`total = "900.0"`. The tax amount is stored under the key `impuestos`,
which the validator never reads (it reads `iva`, absent, hence 0). Rules 4
and 6 do produce passing findings — but over these mis-scaled values
(900 + 0 against 900, and item sum 900 against 900), not the claimed
ones. -/
theorem claim_C8_locale_scenario :
    (extractSemanticData scenarioText).subtotal = "900.000"
    ∧ (extractSemanticData scenarioText).impuestos = "171.000"
    ∧ (extractSemanticData scenarioText).total = "900.0"
    ∧ PyVal.toQ (.str (extractSemanticData scenarioText).subtotal) = some 900
    ∧ PyVal.toQ (.str (extractSemanticData scenarioText).total) = some 900
    ∧ PyVal.toQ (.str (extractSemanticData scenarioText).subtotal) ≠ some 900000
    ∧ (dictOfExtracted (extractSemanticData scenarioText)).iva = PyVal.num 0
    ∧ (validateInvoice 0 none (dictOfExtracted (extractSemanticData scenarioText))).validations.get? 3 =
        some ⟨"Coherencia de Totales", true, Severity.success⟩
    ∧ (validateInvoice 0 none (dictOfExtracted (extractSemanticData scenarioText))).validations.get? 5 =
        some ⟨"Suma de Ítems", true, Severity.success⟩ := by
  refine ⟨?_, ?_, ?_, ?_, ?_, ?_, ?_, ?_, ?_⟩
  · with_unfolding_all rfl
  · with_unfolding_all rfl
  · with_unfolding_all rfl
  · with_unfolding_all rfl
  · with_unfolding_all rfl
  · with_unfolding_all decide
  · with_unfolding_all rfl
  · with_unfolding_all rfl
  · with_unfolding_all rfl

/-- C9 counterexample: on two unrelated documents where no invoice-number
matcher fires, the extracted `numero_factura` is the same non-null
constant `"ELECTRONICA"` — neither null nor a surrogate derived from a
unique attribute of the document (the two documents share no attribute,
yet receive identical values, and the value carries no marker prefix
distinguishing it from an extracted number). -/
theorem claim_C9_counterexample :
    (extractSemanticData "hello world").numero_factura = some "ELECTRONICA" ∧
    (extractSemanticData "lorem ipsum dolor sit amet").numero_factura =
      some "ELECTRONICA" := by
  with_unfolding_all exact ⟨rfl, rfl⟩

/-- C9 (amended): when no invoice-number matcher yields a value,
`_extract_invoice_number` returns the fixed sentinel string
`"ELECTRONICA"` (the field is null only when the whole input text is
empty, via `_empty_invoice`); a genuinely labelled number is extracted as
such. -/
theorem claim_C9_sentinel_amended :
    (extractSemanticData "").numero_factura = none
    ∧ extractInvoiceNumber "hello world" ["hello world"] = "ELECTRONICA"
    ∧ extractInvoiceNumber "lorem ipsum dolor sit amet"
        ["lorem ipsum dolor sit amet"] = "ELECTRONICA"
    ∧ extractInvoiceNumber "Invoice: ABC-123" ["Invoice: ABC-123"] = "ABC-123" := by
  with_unfolding_all exact ⟨rfl, rfl, rfl, rfl⟩

end Factura
